import Mathlib

/-!
Verification development for the `aiida-firecrest` package: a shallow
embedding of the pure decision logic of `remote_path.py`, `transport.py`,
`scheduler.py` and `utils.py`, together with theorems checking the
natural-language specification against that logic.

Conventions:
* Python exceptions become the inductive type `Exc`; a fallible operation
  returns `Except Exc α`.
* A remote `stat`/`lstat` call is modelled by its outcome, a value of type
  `Except Exc Nat` holding the `st_mode` on success.
* Machine integers are `Nat`; Python's `&` on modes is `Nat.land` (`&&&`).
-/

namespace AiidaFirecrest

/-- Model of the Python exception classes that the package raises or
inspects.  `headerException` models `firecrest.HeaderException`, carrying
the response headers of its last response; `osError` is a plain `OSError`
with its message; `other` is any other exception, `str(exc)` being the
carried message. -/
inductive Exc where
  | fileNotFound
  | fileExists
  | isADirectory
  | notADirectory
  | permissionError
  | apiTimeout
  | machineDoesNotExist
  | fileSizeExceeded
  | schedulerError
  | jobNotFound
  | osError (msg : String)
  | headerException (headers : List String) (msg : String)
  | other (msg : String)
  deriving DecidableEq, Repr

/-! ### `stat` module helpers (CPython `Lib/stat.py`) -/

/-- `stat.S_IFMT(mode)`: the file-type bits, `mode & 0o170000`. -/
def S_IFMT (mode : Nat) : Nat := mode &&& 61440

/-- `stat.S_ISDIR(mode)`: `S_IFMT(mode) == 0o040000`. -/
def S_ISDIR (mode : Nat) : Bool := S_IFMT mode == 16384

/-- `stat.S_ISREG(mode)`: `S_IFMT(mode) == 0o100000`. -/
def S_ISREG (mode : Nat) : Bool := S_IFMT mode == 32768

/-- `stat.S_ISLNK(mode)`: `S_IFMT(mode) == 0o120000`. -/
def S_ISLNK (mode : Nat) : Bool := S_IFMT mode == 40960

/-! ### `remote_path._ls_to_st_mode` -/

/-- The `ftypes` table of `_ls_to_st_mode` (`remote_path.py:579`),
mapping the `ls` type character to the string prefixed to the permission
digits before the base-8 parse. -/
def ftypes (ftype : Char) : Option String :=
  if ftype = 'b' then some "0060"
  else if ftype = 'c' then some "0020"
  else if ftype = 'd' then some "0040"
  else if ftype = 'l' then some "0120"
  else if ftype = 's' then some "0140"
  else if ftype = 'p' then some "0010"
  else if ftype = '-' then some "0100"
  else none

/-- `int(s, 8)` on a string of octal digits: fold `acc * 8 + digit`. -/
def parseOct (s : List Char) : Nat :=
  s.foldl (fun acc c => acc * 8 + (c.toNat - 48)) 0

/-- The `r`/`w`/`x` lambdas of `_ls_to_st_mode` (`remote_path.py:591`). -/
def rBit (c : Char) : Nat := if c = 'r' then 4 else 0

/-- See `rBit`. -/
def wBit (c : Char) : Nat := if c = 'w' then 2 else 0

/-- See `rBit`. -/
def xBit (c : Char) : Nat := if c = 'x' then 1 else 0

/-- Embedding of `remote_path._ls_to_st_mode` (`remote_path.py:570`).
The permission string is taken as its list of characters `p[0..8]`;
the Python `int(ftypes[ftype] + str(st_mode), 8)` is the base-8 parse of
the type string concatenated with the decimal representation of the
permission number.  `none` models the `ValueError` on an unknown type
character. -/
def ls_to_st_mode (ftype : Char) (p : List Char) : Option Nat :=
  match ftypes ftype with
  | none => none
  | some t =>
    let st_mode :=
      (rBit (p.getD 0 ' ') + wBit (p.getD 1 ' ') + xBit (p.getD 2 ' ')) * 100
      + (rBit (p.getD 3 ' ') + wBit (p.getD 4 ' ') + xBit (p.getD 5 ' ')) * 10
      + (rBit (p.getD 6 ' ') + wBit (p.getD 7 ' ') + xBit (p.getD 8 ' ')) * 1
    some (parseOct (t ++ Nat.repr st_mode).toList)

/-! ### Boolean probes (`remote_path.py:326-356`, `transport.py:546-590`)

`FcPath.exists/is_dir/is_file/is_symlink` and the transport's
`path_exists_async/isdir_async/isfile_async/is_symlink_async` all have the
same shape: call `stat` (or `lstat` for the symlink probe), turn a
`FileNotFoundError` into `False`, propagate every other exception, and on
success test the mode bits.  Each probe is a function of the outcome of
the underlying `stat`/`lstat` call. -/

/-- `FcPath.exists` / `FirecrestTransport.path_exists_async`. -/
def path_exists (st : Except Exc Nat) : Except Exc Bool :=
  match st with
  | .ok _ => .ok true
  | .error .fileNotFound => .ok false
  | .error e => .error e

/-- `FcPath.is_dir` / `FirecrestTransport.isdir_async`. -/
def isdir (st : Except Exc Nat) : Except Exc Bool :=
  match st with
  | .ok m => .ok (S_ISDIR m)
  | .error .fileNotFound => .ok false
  | .error e => .error e

/-- `FcPath.is_file` / `FirecrestTransport.isfile_async`. -/
def isfile (st : Except Exc Nat) : Except Exc Bool :=
  match st with
  | .ok m => .ok (S_ISREG m)
  | .error .fileNotFound => .ok false
  | .error e => .error e

/-- `FcPath.is_symlink` / `FirecrestTransport.is_symlink_async`; the
argument is the outcome of the `lstat` call. -/
def is_symlink (lst : Except Exc Nat) : Except Exc Bool :=
  match lst with
  | .ok m => .ok (S_ISLNK m)
  | .error .fileNotFound => .ok false
  | .error e => .error e

/-! ### `remove` / `rmtree` / `unlink`

Each is a function of the outcome of the remote `stat`/`lstat` for the
path (assumed stable across the consecutive probe calls within one
operation).  The result pairs the operation's outcome with a flag telling
whether the remote delete primitive (`rm`, a recursive `rm -rf` on the
server) was invoked. -/

/-- Embedding of `FirecrestTransport.remove_async` (`transport.py:1312`):
delete only if `isfile_async`; silently return if the path does not
exist; otherwise raise `OSError(f"Path is not a file: {path}")`. -/
def remove_async (st : Except Exc Nat) (path : String) :
    Except Exc Unit × Bool :=
  match isfile st with
  | .error e => (.error e, false)
  | .ok true => (.ok (), true)
  | .ok false =>
    match path_exists st with
    | .error e => (.error e, false)
    | .ok false => (.ok (), false)
    | .ok true => (.error (.osError ("Path is not a file: " ++ path)), false)

/-- Embedding of `FirecrestTransport.rmtree_async` (`transport.py:1359`):
delete only if `isdir_async`; silently return if the path does not exist;
otherwise raise `OSError(f"Path is not a directory: {path}")`. -/
def rmtree_async (st : Except Exc Nat) (path : String) :
    Except Exc Unit × Bool :=
  match isdir st with
  | .error e => (.error e, false)
  | .ok true => (.ok (), true)
  | .ok false =>
    match path_exists st with
    | .error e => (.error e, false)
    | .ok false => (.ok (), false)
    | .ok true => (.error (.osError ("Path is not a directory: " ++ path)), false)

/-- Embedding of `FcPath.unlink` (`remote_path.py:537`): on
`FileNotFoundError` from `lstat`, re-raise unless `missing_ok`; on a
directory mode raise `IsADirectoryError`; otherwise call the remote
delete. -/
def unlink (lst : Except Exc Nat) (missing_ok : Bool) :
    Except Exc Unit × Bool :=
  match lst with
  | .error .fileNotFound =>
    if missing_ok then (.ok (), false) else (.error .fileNotFound, false)
  | .error e => (.error e, false)
  | .ok m =>
    if S_ISDIR m then (.error .isADirectory, false) else (.ok (), true)

/-! ### `FirecrestTransport.payoff` (`transport.py:1146`) -/

/-- Embedding of `FirecrestTransport.payoff`: if `payoff_override` is not
`None` return `bool(payoff_override)`; otherwise compare the number of
listed entries against the hard-coded threshold 3 (`os.listdir` when the
path exists locally, recursive remote `listdir` otherwise). -/
def payoff (payoff_override : Option Bool) (isLocal : Bool)
    (localCount remoteCount : Nat) : Bool :=
  match payoff_override with
  | some b => b
  | none => if isLocal then localCount > 3 else remoteCount > 3

/-! ### Posix path fragments for `gettree`/`puttree` destination naming

Paths are lists of characters.  `basenameL` is `posixpath.basename`
(everything after the last separator); `posixJoin` is the two-argument
`posixpath.join`, which `FcPath.joinpath` (`utils.py:61`) uses, and which
agrees with `pathlib.Path.joinpath` on separator-free component names. -/

/-- The character is not the posix separator. -/
def notSlash (c : Char) : Bool := c != '/'

/-- `posixpath.basename`: the characters after the last slash. -/
def basenameL (s : List Char) : List Char :=
  ((s.reverse).takeWhile notSlash).reverse

/-- Python `path.endswith("/")` at the character-list level. -/
def endsWithSlash (a : List Char) : Bool := a.reverse.head? == some '/'

/-- Two-argument `posixpath.join`: if the second part is absolute it
replaces the first; otherwise a slash is inserted unless the first part
is empty or already ends with one. -/
def posixJoin (a b : List Char) : List Char :=
  if b.head? == some '/' then b
  else if a.isEmpty || endsWithSlash a then a ++ b
  else a ++ '/' :: b

/-- Embedding of the destination-naming block of
`FirecrestTransport.gettree_async` (`transport.py:980-987`): if the local
destination exists, the new tree root is `local.joinpath(remotepath.name)`,
otherwise it is `local` itself (each created by `mkdir`). -/
def gettree_newRoot (remotepath localpath : List Char) (localExists : Bool) :
    List Char :=
  if localExists then posixJoin localpath (basenameL remotepath)
  else localpath

/-- Embedding of the destination-naming block of
`FirecrestTransport.puttree_async` (`transport.py:1238-1245`): if the
remote destination exists, the new tree root is
`remote.joinpath(localpath.name)`, otherwise it is `remote` itself. -/
def puttree_newRoot (localpath remotepath : List Char) (remoteExists : Bool) :
    List Char :=
  if remoteExists then posixJoin remotepath (basenameL localpath)
  else remotepath

/-! ### Scheduler: job-state mapping (`scheduler.py:204-276,441-464`) -/

/-- The canonical AiiDA `JobState` values used by the plugin. -/
inductive JobState where
  | queued
  | queued_held
  | running
  | suspended
  | done
  | undetermined
  deriving DecidableEq, Repr

/-- The `_MAP_STATUS_SLURM` table (`scheduler.py:441`). -/
def _MAP_STATUS_SLURM : List (String × JobState) :=
  [("CA", .done), ("CANCELLED", .done),
   ("CD", .done), ("COMPLETED", .done),
   ("CF", .queued), ("CONFIGURING", .queued),
   ("CG", .running), ("COMPLETING", .running),
   ("F", .done), ("FAILED", .done),
   ("NF", .done), ("NODE_FAIL", .done),
   ("PD", .queued), ("PENDING", .queued),
   ("PR", .done), ("PREEMPTED", .done),
   ("R", .running), ("RUNNING", .running),
   ("S", .suspended), ("SUSPENDED", .suspended),
   ("TO", .done), ("TIMEOUT", .done)]

/-- The held reasons checked at `scheduler.py:268-273`. -/
def heldReasons : List String :=
  ["Dependency", "JobHeldUser", "JobHeldAdmin", "BeginTime"]

/-- Embedding of the per-record state computation of
`FirecrestScheduler.get_jobs` (`scheduler.py:244-276`): look the raw state
up in `_MAP_STATUS_SLURM`; a `KeyError` logs a warning (the returned flag)
and yields `UNDETERMINED`; a `QUEUED` state whose job annotation is one of
the held reasons becomes `QUEUED_HELD`. -/
def jobStateOf (job_state_raw ann : String) : JobState × Bool :=
  let base : JobState × Bool :=
    match _MAP_STATUS_SLURM.lookup job_state_raw with
    | some s => (s, false)
    | none => (JobState.undetermined, true)
  if base.1 = JobState.queued ∧ ann ∈ heldReasons then
    (JobState.queued_held, base.2)
  else base

/-- In `get_jobs` the job annotation is hard-set to the empty string
(`scheduler.py:242`, FirecREST does not return it), so the per-record
state is `jobStateOf` at annotation `""`. -/
def get_jobs_record_state (job_state_raw : String) : JobState × Bool :=
  jobStateOf job_state_raw ""

/-! ### Scheduler: submit-script header directives (`scheduler.py:148-185`) -/

/-- Python `f"{n:02d}"` for a natural number. -/
def pad2 (n : Nat) : String :=
  if n < 10 then "0" ++ Nat.repr n else Nat.repr n

/-- Embedding of the `--time` directive of
`FirecrestScheduler._get_submit_script_header` (`scheduler.py:159-170`):
split the total seconds into days / hours / minutes / seconds and render
`HH:MM:SS`, or `D-HH:MM:SS` when `days` is nonzero. -/
def time_directive (tot_secs : Nat) : String :=
  let days := tot_secs / 86400
  let tot_hours := tot_secs % 86400
  let hours := tot_hours / 3600
  let tot_minutes := tot_hours % 3600
  let minutes := tot_minutes / 60
  let seconds := tot_minutes % 60
  if days = 0 then
    "#SBATCH --time=" ++ pad2 hours ++ ":" ++ pad2 minutes ++ ":" ++ pad2 seconds
  else
    "#SBATCH --time=" ++ Nat.repr days ++ "-" ++ pad2 hours ++ ":"
      ++ pad2 minutes ++ ":" ++ pad2 seconds

/-- Embedding of the `--mem` directive (`scheduler.py:185`): the kilobyte
value integer-divided by 1024. -/
def mem_directive (physical_memory_kb : Nat) : String :=
  "#SBATCH --mem=" ++ Nat.repr (physical_memory_kb / 1024)

/-! ### `utils.convert_header_exceptions` (`utils.py:88-122,156-168`) -/

/-- The `_COMMON_HEADER_EXC` signal table (`utils.py:156`). -/
def _COMMON_HEADER_EXC : List (String × Exc) :=
  [("X-Timeout", .apiTimeout),
   ("X-Machine-Does-Not-Exist", .machineDoesNotExist),
   ("X-Machine-Not-Available", .permissionError),
   ("X-Permission-Denied", .permissionError),
   ("X-Not-Found", .fileNotFound),
   ("X-Not-A-Directory", .notADirectory),
   ("X-Exists", .fileExists),
   ("X-Invalid-Path", .fileNotFound),
   ("X-A-Directory", .isADirectory),
   ("X-Size-Limit", .fileSizeExceeded),
   ("X-Sbatch-Error", .schedulerError)]

/-- `converters.get(header)` after the dict merge
`{**_COMMON_HEADER_EXC, **(convert or {})}`: a per-call override entry
wins (and may be `None`, disabling the conversion). -/
def convGet (extra : List (String × Option Exc)) (h : String) : Option Exc :=
  match extra.lookup h with
  | some v => v
  | none => _COMMON_HEADER_EXC.lookup h

/-- The loop `for header in exc.responses[-1].headers` of
`convert_header_exceptions` (`utils.py:103-106`): the first header with a
non-`None` converter decides the raised exception. -/
def findConv (extra : List (String × Option Exc)) :
    List String → Option Exc
  | [] => none
  | h :: hs =>
    match convGet extra h with
    | some e => some e
    | none => findConv extra hs

/-- `pattern.isPrefixOf s` at the character level (Python `startswith`). -/
def startsSeq : List Char → List Char → Bool
  | [], _ => true
  | _ :: _, [] => false
  | a :: as_, b :: bs => a == b && startsSeq as_ bs

/-- Python `pattern in s` (substring test). -/
def containsSeq (s pattern : List Char) : Bool :=
  match s with
  | [] => startsSeq pattern []
  | _ :: t => startsSeq pattern s || containsSeq t pattern

/-- `str(exc)` for the modelled exceptions: only the message-carrying
constructors render a message. -/
def excMsg : Exc → String
  | .osError m => m
  | .headerException _ m => m
  | .other m => m
  | _ => ""

/-- Embedding of `utils.convert_header_exceptions` (`utils.py:88-122`)
applied to the outcome of the wrapped block: a `HeaderException` is
replaced by the first matching converter's exception, or re-raised
unchanged when no header matches; any other exception goes through the
message-substring fallbacks (`"File exists"`, `"cannot statx"`,
`"Job not found"`) and is otherwise re-raised. -/
def convert_header_exceptions (extra : List (String × Option Exc))
    (outcome : Except Exc Unit) : Except Exc Unit :=
  match outcome with
  | .ok u => .ok u
  | .error (.headerException hs msg) =>
    (match findConv extra hs with
     | some e => .error e
     | none => .error (.headerException hs msg))
  | .error e =>
    if containsSeq (excMsg e).toList "File exists".toList then
      .error (.fileExists)
    else if containsSeq (excMsg e).toList "cannot statx".toList then
      .error (.fileNotFound)
    else if containsSeq (excMsg e).toList "Job not found".toList then
      .error (.jobNotFound)
    else .error e

/-! ## Helper lemmas -/

theorem takeWhile_append_of_all {p : Char → Bool} :
    ∀ (l l' : List Char), (∀ x ∈ l, p x = true) →
      (l ++ l').takeWhile p = l ++ l'.takeWhile p
  | [], _, _ => rfl
  | a :: t, l', h => by
    have ha : p a = true := h a (List.mem_cons_self a t)
    simp only [List.cons_append, List.takeWhile_cons, ha, if_true]
    rw [takeWhile_append_of_all t l' (fun x hx => h x (List.mem_cons_of_mem a hx))]

theorem takeWhile_eq_self_of_all {p : Char → Bool} (l : List Char)
    (h : ∀ x ∈ l, p x = true) : l.takeWhile p = l := by
  have := takeWhile_append_of_all l [] h
  simpa using this

theorem mem_basenameL_notSlash (s : List Char) :
    ∀ c ∈ basenameL s, notSlash c = true := by
  intro c hc
  have hc' : c ∈ (s.reverse).takeWhile notSlash := List.mem_reverse.mp hc
  exact List.mem_takeWhile_imp hc'

theorem notSlash_spec {c : Char} (h : notSlash c = true) : c ≠ '/' := by
  simpa [notSlash] using h

/-- Appending a slash-free name to any base path leaves the name as the
basename of the join. -/
theorem basenameL_posixJoin (a b : List Char)
    (hb : ∀ c ∈ b, notSlash c = true) :
    basenameL (posixJoin a b) = b := by
  have hbrev : ∀ c ∈ b.reverse, notSlash c = true := by
    intro c hc; exact hb c (List.mem_reverse.mp hc)
  have hslash : notSlash '/' = false := by decide
  unfold posixJoin
  by_cases hb0 : b.head? == some '/'
  · -- impossible: `b` would start with a slash
    cases b with
    | nil => simp at hb0
    | cons c t =>
      have : c = '/' := by simpa using hb0
      have := notSlash_spec (hb c (List.mem_cons_self c t))
      exact absurd this (by simp [‹c = '/'›])
  · rw [if_neg hb0]
    by_cases ha : a.isEmpty || endsWithSlash a
    · rw [if_pos ha]
      rcases Bool.or_eq_true_iff.mp ha with hae | haslash
      · have : a = [] := by simpa [List.isEmpty_iff] using hae
        subst this
        simp only [List.nil_append, basenameL]
        rw [takeWhile_eq_self_of_all _ hbrev, List.reverse_reverse]
      · -- `a` ends with a slash: its reversal starts with one
        have : ∃ t, a.reverse = '/' :: t := by
          unfold endsWithSlash at haslash
          cases har : a.reverse with
          | nil => rw [har] at haslash; simp at haslash
          | cons c t =>
            rw [har] at haslash
            have : c = '/' := by simpa using haslash
            exact ⟨t, by rw [‹c = '/'›]⟩
        obtain ⟨t, hat⟩ := this
        simp only [basenameL, List.reverse_append, hat]
        rw [takeWhile_append_of_all _ _ hbrev]
        simp [List.takeWhile_cons, hslash]
    · rw [if_neg ha]
      simp only [basenameL, List.reverse_append, List.reverse_cons]
      rw [List.append_assoc, List.singleton_append,
        takeWhile_append_of_all _ _ hbrev]
      simp [List.takeWhile_cons, hslash]

/-! ## Claim theorems -/

/-- C1: mode-bit synthesis round-trip.  The claim fails on the code: for
the directory entry with permission string `---------` the synthesized
mode is `256` (`0o400`), not `0o40 * 512 + 0 = 16384` (`0o040000`), because
`str()` of the permission number drops its leading zeros before the
base-8 parse; the decomposed file type is then not a directory.  A case
with a nonzero owner triplet (`rwxr-xr-x`) round-trips correctly, showing
the slip is confined to permission strings whose decimal permission
number has fewer than three digits. -/
theorem c1_mode_bug_eval :
    ls_to_st_mode 'd' "---------".toList = some 256
    ∧ 256 ≠ 32 * 512 + 0
    ∧ S_ISDIR 256 = false
    ∧ ls_to_st_mode 'd' "rwxr-xr-x".toList = some 16877
    ∧ 16877 = 32 * 512 + 493
    ∧ S_ISDIR 16877 = true := by decide

/-- C2: the payoff heuristic returns archive transfer exactly when the
entry count (local or remote) exceeds 3, i.e. is at least 4; a non-`None`
`payoff_override` is returned unconditionally, whatever the counts. -/
theorem c2_payoff_threshold (n localCount remoteCount : Nat)
    (b isLocal : Bool) :
    (payoff none isLocal n n = true ↔ 4 ≤ n)
    ∧ payoff (some b) isLocal localCount remoteCount = b := by
  constructor
  · cases isLocal <;> simp [payoff] <;> omega
  · rfl

/-- C3: tree-transfer destination naming, for both `gettree_async` and
`puttree_async`: when the destination exists the new tree root is the
destination joined with the source's basename (and its basename is the
source's basename); when it does not exist the destination itself is the
new tree root. -/
theorem c3_tree_destination_naming (src dest : List Char) :
    gettree_newRoot src dest true = posixJoin dest (basenameL src)
    ∧ basenameL (gettree_newRoot src dest true) = basenameL src
    ∧ gettree_newRoot src dest false = dest
    ∧ puttree_newRoot src dest true = posixJoin dest (basenameL src)
    ∧ basenameL (puttree_newRoot src dest true) = basenameL src
    ∧ puttree_newRoot src dest false = dest := by
  refine ⟨rfl, ?_, rfl, rfl, ?_, rfl⟩ <;>
    exact basenameL_posixJoin dest (basenameL src) (mem_basenameL_notSlash src)

/-- C4: job-state mapping totality.  A raw state that is not a key of
`_MAP_STATUS_SLURM` maps (totally, never raising) to `UNDETERMINED` with
the warning flag set, whatever the job annotation; and every value of the
table is one of `QUEUED`, `RUNNING`, `SUSPENDED`, `DONE`. -/
theorem c4_state_mapping_total (raw ann : String)
    (h : _MAP_STATUS_SLURM.lookup raw = none) :
    jobStateOf raw ann = (JobState.undetermined, true)
    ∧ ∀ p ∈ _MAP_STATUS_SLURM,
        p.2 = JobState.queued ∨ p.2 = JobState.running
        ∨ p.2 = JobState.suspended ∨ p.2 = JobState.done := by
  refine ⟨?_, by decide⟩
  simp [jobStateOf, h]

theorem c4_state_mapping_total_witness :
    _MAP_STATUS_SLURM.lookup "UNKNOWN_STATE" = none
    ∧ (jobStateOf "UNKNOWN_STATE" "" = (JobState.undetermined, true)
       ∧ ∀ p ∈ _MAP_STATUS_SLURM,
           p.2 = JobState.queued ∨ p.2 = JobState.running
           ∨ p.2 = JobState.suspended ∨ p.2 = JobState.done) :=
  ⟨by decide, c4_state_mapping_total "UNKNOWN_STATE" "" (by decide)⟩

/-- C5: a record whose raw state maps to `QUEUED` and whose annotation is
one of the held reasons is reported as `QUEUED_HELD` (with no warning)
by the state computation of `get_jobs`. -/
theorem c5_queued_held (raw ann : String)
    (h1 : _MAP_STATUS_SLURM.lookup raw = some JobState.queued)
    (h2 : ann ∈ heldReasons) :
    jobStateOf raw ann = (JobState.queued_held, false) := by
  simp [jobStateOf, h1, h2]

theorem c5_queued_held_witness :
    _MAP_STATUS_SLURM.lookup "PENDING" = some JobState.queued
    ∧ "Dependency" ∈ heldReasons
    ∧ jobStateOf "PENDING" "Dependency" = (JobState.queued_held, false) :=
  ⟨by decide, by decide,
    c5_queued_held "PENDING" "Dependency" (by decide) (by decide)⟩

/-- C6: the boolean probes turn a `FileNotFoundError` from the underlying
`stat`/`lstat` into `false`, propagate every other error unchanged, and on
success return the corresponding mode-bit test: no error other than
file-not-found becomes a boolean. -/
theorem c6_probe_error_conversion (m : Nat) (e : Exc)
    (hne : e ≠ Exc.fileNotFound) :
    (path_exists (.error .fileNotFound) = .ok false
      ∧ isdir (.error .fileNotFound) = .ok false
      ∧ isfile (.error .fileNotFound) = .ok false
      ∧ is_symlink (.error .fileNotFound) = .ok false)
    ∧ (path_exists (.error e) = .error e
      ∧ isdir (.error e) = .error e
      ∧ isfile (.error e) = .error e
      ∧ is_symlink (.error e) = .error e)
    ∧ (path_exists (.ok m) = .ok true
      ∧ isdir (.ok m) = .ok (S_ISDIR m)
      ∧ isfile (.ok m) = .ok (S_ISREG m)
      ∧ is_symlink (.ok m) = .ok (S_ISLNK m)) := by
  refine ⟨⟨rfl, rfl, rfl, rfl⟩, ⟨?_, ?_, ?_, ?_⟩, rfl, rfl, rfl, rfl⟩ <;>
    (cases e <;> first | rfl | exact absurd rfl hne)

theorem c6_probe_error_conversion_witness :
    Exc.permissionError ≠ Exc.fileNotFound
    ∧ ((path_exists (.error .fileNotFound) = .ok false
        ∧ isdir (.error .fileNotFound) = .ok false
        ∧ isfile (.error .fileNotFound) = .ok false
        ∧ is_symlink (.error .fileNotFound) = .ok false)
      ∧ (path_exists (.error .permissionError) = .error .permissionError
        ∧ isdir (.error .permissionError) = .error .permissionError
        ∧ isfile (.error .permissionError) = .error .permissionError
        ∧ is_symlink (.error .permissionError) = .error .permissionError)
      ∧ (path_exists (.ok 16877) = .ok true
        ∧ isdir (.ok 16877) = .ok (S_ISDIR 16877)
        ∧ isfile (.ok 16877) = .ok (S_ISREG 16877)
        ∧ is_symlink (.ok 16877) = .ok (S_ISLNK 16877))) :=
  ⟨by decide, c6_probe_error_conversion 16877 .permissionError (by decide)⟩

theorem convGet_nil (x : String) :
    convGet [] x = _COMMON_HEADER_EXC.lookup x := rfl

theorem findConv_nil_of_none (hs : List String)
    (h : ∀ x ∈ hs, _COMMON_HEADER_EXC.lookup x = none) :
    findConv [] hs = none := by
  induction hs with
  | nil => rfl
  | cons a t ih =>
    have ha := h a (List.mem_cons_self a t)
    simp only [findConv, convGet_nil, ha]
    exact ih (fun x hx => h x (List.mem_cons_of_mem a hx))

/-- C7: error-translation fallthrough for header exceptions, with no
per-call overrides.  If the headers start with a run of signals absent
from `_COMMON_HEADER_EXC` followed by a matching signal, the converted
exception of that first matching signal is raised; if no header matches,
the original `HeaderException` is re-raised unmodified; and a failing
wrapped call is never turned into a success. -/
theorem c7_header_fallthrough (pre : List String) (hd : String)
    (rest : List String) (msg : String) (e : Exc)
    (hpre : ∀ x ∈ pre, _COMMON_HEADER_EXC.lookup x = none)
    (hh : _COMMON_HEADER_EXC.lookup hd = some e) :
    convert_header_exceptions []
        (.error (.headerException (pre ++ hd :: rest) msg)) = .error e
    ∧ (∀ hs : List String,
        (∀ x ∈ hs, _COMMON_HEADER_EXC.lookup x = none) →
        convert_header_exceptions [] (.error (.headerException hs msg))
          = .error (.headerException hs msg))
    ∧ (∀ (hs : List String) (m : String),
        convert_header_exceptions [] (.error (.headerException hs m))
          ≠ .ok ()) := by
  refine ⟨?_, ?_, ?_⟩
  · have hfind : findConv [] (pre ++ hd :: rest) = some e := by
      induction pre with
      | nil => simp [findConv, convGet_nil, hh]
      | cons a t ih =>
        have ha := hpre a (List.mem_cons_self a t)
        simp only [List.cons_append, findConv, convGet_nil, ha]
        exact ih (fun x hx => hpre x (List.mem_cons_of_mem a hx))
    simp [convert_header_exceptions, hfind]
  · intro hs hnone
    simp [convert_header_exceptions, findConv_nil_of_none hs hnone]
  · intro hs m
    simp only [convert_header_exceptions]
    cases findConv [] hs <;> simp

theorem c7_header_fallthrough_witness :
    (∀ x ∈ ([] : List String), _COMMON_HEADER_EXC.lookup x = none)
    ∧ _COMMON_HEADER_EXC.lookup "X-Not-Found" = some Exc.fileNotFound
    ∧ (convert_header_exceptions []
          (.error (.headerException ([] ++ "X-Not-Found" :: []) ""))
          = .error Exc.fileNotFound
      ∧ (∀ hs : List String,
          (∀ x ∈ hs, _COMMON_HEADER_EXC.lookup x = none) →
          convert_header_exceptions [] (.error (.headerException hs ""))
            = .error (.headerException hs ""))
      ∧ (∀ (hs : List String) (m : String),
          convert_header_exceptions [] (.error (.headerException hs m))
            ≠ .ok ())) :=
  ⟨by simp, by decide,
    c7_header_fallthrough [] "X-Not-Found" [] "" .fileNotFound (by simp)
      (by decide)⟩

/-- The `HH:MM:SS` rendering exactly as the spec words it (day segment
omitted), for comparison with the code's `time_directive`. -/
def specTimeShort (t : Nat) : String :=
  "#SBATCH --time=" ++ pad2 (t % 86400 / 3600) ++ ":"
    ++ pad2 (t % 86400 % 3600 / 60) ++ ":" ++ pad2 (t % 86400 % 3600 % 60)

/-- The `D-HH:MM:SS` rendering exactly as the spec words it (unpadded day
count first), for comparison with the code's `time_directive`. -/
def specTimeLong (t : Nat) : String :=
  "#SBATCH --time=" ++ Nat.repr (t / 86400) ++ "-"
    ++ pad2 (t % 86400 / 3600) ++ ":" ++ pad2 (t % 86400 % 3600 / 60)
    ++ ":" ++ pad2 (t % 86400 % 3600 % 60)

/-- C8: script-header unit conversion.  The day/hour/minute/second split
recombines to the requested seconds; the rendered directive is the
`HH:MM:SS` form exactly when the day count is zero and the `D-HH:MM:SS`
form otherwise; 3600 seconds render `01:00:00`; the memory directive is
the kilobyte value integer-divided by 1024, so 1024 kB renders `--mem=1`
and 2047 kB still renders `--mem=1` (truncated, not rounded). -/
theorem c8_script_header_units (t kb : Nat) (_ht : 0 < t) :
    (t / 86400) * 86400 + (t % 86400 / 3600) * 3600
      + (t % 86400 % 3600 / 60) * 60 + t % 86400 % 3600 % 60 = t
    ∧ time_directive t
        = (if t / 86400 = 0 then specTimeShort t else specTimeLong t)
    ∧ time_directive 3600 = "#SBATCH --time=01:00:00"
    ∧ time_directive 90061 = "#SBATCH --time=1-01:01:01"
    ∧ mem_directive kb = "#SBATCH --mem=" ++ Nat.repr (kb / 1024)
    ∧ mem_directive 1024 = "#SBATCH --mem=1"
    ∧ mem_directive 2047 = "#SBATCH --mem=1" := by
  refine ⟨by omega, ?_, by decide, by decide, rfl, by decide, by decide⟩
  simp only [time_directive, specTimeShort, specTimeLong]

theorem c8_script_header_units_witness :
    0 < 3600
    ∧ ((3600 / 86400) * 86400 + (3600 % 86400 / 3600) * 3600
        + (3600 % 86400 % 3600 / 60) * 60 + 3600 % 86400 % 3600 % 60 = 3600
      ∧ time_directive 3600
          = (if 3600 / 86400 = 0 then specTimeShort 3600 else specTimeLong 3600)
      ∧ time_directive 3600 = "#SBATCH --time=01:00:00"
      ∧ time_directive 90061 = "#SBATCH --time=1-01:01:01"
      ∧ mem_directive 1024 = "#SBATCH --mem=" ++ Nat.repr (1024 / 1024)
      ∧ mem_directive 1024 = "#SBATCH --mem=1"
      ∧ mem_directive 2047 = "#SBATCH --mem=1") :=
  ⟨by decide, c8_script_header_units 3600 1024 (by decide)⟩

theorem S_ISDIR_not_reg {m : Nat} (h : S_ISDIR m = true) :
    S_ISREG m = false := by
  simp only [S_ISDIR, S_IFMT, beq_iff_eq] at h
  simp [S_ISREG, S_IFMT, h]

/-- C9 counterexample: on an existing directory (mode `0o040700`), the
transport's `remove_async` raises the plain
`OSError("Path is not a file: ...")` of `transport.py:1326`, which is not
an `IsADirectoryError`; so the claim's "raises an is-a-directory error"
is false as stated for the remove operation (the remote delete is indeed
not invoked). -/
theorem c9_remove_counterexample :
    remove_async (.ok 16832) "/scratch/dir"
      = (.error (.osError "Path is not a file: /scratch/dir"), false)
    ∧ Exc.osError "Path is not a file: /scratch/dir" ≠ Exc.isADirectory
    ∧ S_ISDIR 16832 = true :=
  ⟨by rfl, by decide, by decide⟩

/-- C9 (amended): for every path that exists and is a directory, the
remove operation refuses to delete it without invoking the remote
recursive delete primitive — `remove_async` raising
`OSError("Path is not a file: ...")` and `FcPath.unlink` raising
`IsADirectoryError` — and the remote delete is invoked by `remove_async`
exactly for regular files (never when `stat` itself fails). -/
theorem c9_remove_file_only (m : Nat) (p : String) (mo : Bool)
    (hdir : S_ISDIR m = true) :
    remove_async (.ok m) p
      = (.error (.osError ("Path is not a file: " ++ p)), false)
    ∧ unlink (.ok m) mo = (.error .isADirectory, false)
    ∧ (∀ m' : Nat, (remove_async (.ok m') p).2 = S_ISREG m')
    ∧ (∀ e : Exc, (remove_async (.error e) p).2 = false) := by
  refine ⟨?_, ?_, ?_, ?_⟩
  · have hr := S_ISDIR_not_reg hdir
    simp [remove_async, isfile, path_exists, hr]
  · simp [unlink, hdir]
  · intro m'
    cases hrm : S_ISREG m' <;> simp [remove_async, isfile, path_exists, hrm]
  · intro e
    cases e <;> simp [remove_async, isfile, path_exists]

theorem c9_remove_file_only_witness :
    S_ISDIR 16832 = true
    ∧ (remove_async (.ok 16832) "/d"
        = (.error (.osError ("Path is not a file: " ++ "/d")), false)
      ∧ unlink (.ok 16832) false = (.error .isADirectory, false)
      ∧ (∀ m' : Nat, (remove_async (.ok m') "/d").2 = S_ISREG m')
      ∧ (∀ e : Exc, (remove_async (.error e) "/d").2 = false)) :=
  ⟨by decide, c9_remove_file_only 16832 "/d" false (by decide)⟩

/-- C10: on a path that does not exist on the remote (the `stat` probes
report file-not-found), both `remove_async` and `rmtree_async` return
normally without raising and without issuing the remote delete; on an
existing path the delete is issued exactly for the right kind (regular
file for remove, directory for rmtree) and the wrong kind raises. -/
theorem c10_missing_path_silent (p : String) (m : Nat) :
    remove_async (.error .fileNotFound) p = (.ok (), false)
    ∧ rmtree_async (.error .fileNotFound) p = (.ok (), false)
    ∧ remove_async (.ok m) p
        = (if S_ISREG m then (.ok (), true)
           else (.error (.osError ("Path is not a file: " ++ p)), false))
    ∧ rmtree_async (.ok m) p
        = (if S_ISDIR m then (.ok (), true)
           else (.error (.osError ("Path is not a directory: " ++ p)), false)) := by
  refine ⟨rfl, rfl, ?_, ?_⟩
  · cases hrm : S_ISREG m <;> simp [remove_async, isfile, path_exists, hrm]
  · cases hrm : S_ISDIR m <;> simp [rmtree_async, isdir, path_exists, hrm]

end AiidaFirecrest
